import Mathlib

/-
Verification of the hopen server-lifecycle tool (src/main.rs) against its
natural-language specification.

Shallow embedding conventions:
* Filesystem paths are lists of path components (`HPath`); an absolute path
  such as `/site/blog` is the component list after the root, `["site", "blog"]`.
  Rust's `Path::starts_with` / `Path::strip_prefix` are component-wise, which
  is `List.isPrefixOf` / `List.drop` on this representation.
* OS state observed through external queries (`lsof`, the process table,
  `TcpListener::bind`) is abstracted into oracle functions carried by a
  `World` record: `isPortBound : Nat → Bool` is the combined result of
  `is_port_in_use` (lsof, with the bind-check fallback), `pidOnPort` is
  `get_pid_on_port`, directory entries of the current directory are the
  `dirEntries` list, and so on.
* Side effects are recorded as an `Event` trace; `printMsg` events record the
  principal diagnostic lines the program prints (first line of each message,
  without terminal colouring).  `open::that` (browser opening) is modelled as
  always succeeding and recorded as an `openBrowser` event.
* Ports are `Nat` (the Rust code uses `u16`; all ports handled are in
  8000..=8100 so no overflow behaviour is involved).
-/

namespace Hopen

/-- A filesystem path, as its list of components after the root. -/
abbrev HPath := List String

/-- Source constant DEFAULT_PORT (src/main.rs:14). -/
def DEFAULT_PORT : Nat := 8000

/-- Source constant MAX_PORT (src/main.rs:15). -/
def MAX_PORT : Nat := 8100

/-- Error kinds surfaced by the port/process helpers (spec section 7). -/
inductive HopenError
  | NoPortAvailable
  | TerminateFailed
deriving DecidableEq, Repr

/-- Error kinds of path resolution (spec section 7). -/
inductive PathError
  | FilenameRequiresRoot
  | NotUnderRoot
deriving DecidableEq, Repr

/-- The ascending port scan loop of `find_available_port` (src/main.rs:411-415):
starting at `p`, with `fuel` ports left to examine, return the first port that
the `isBound` oracle reports free. -/
def scanPorts (isBound : Nat → Bool) : Nat → Nat → Option Nat
  | _, 0 => none
  | p, fuel + 1 => if isBound p then scanPorts isBound (p + 1) fuel else some p

/-- `find_available_port` (src/main.rs:410-421): scan `start_port..=MAX_PORT`
ascending, return the first free port, or the no-port error if all are bound. -/
def find_available_port (isBound : Nat → Bool) (start_port : Nat) :
    Except HopenError Nat :=
  match scanPorts isBound start_port (MAX_PORT + 1 - start_port) with
  | some p => Except.ok p
  | none => Except.error HopenError.NoPortAvailable

/-- The loop of `find_existing_server` (src/main.rs:443-453): first port in the
range that is in use and whose owning pid can be determined. A bound port whose
pid cannot be read is skipped. -/
def scanExisting (isBound : Nat → Bool) (pidOn : Nat → Option Nat) :
    Nat → Nat → Option (Nat × Nat)
  | _, 0 => none
  | p, fuel + 1 =>
    if isBound p then
      match pidOn p with
      | some pid => some (pid, p)
      | none => scanExisting isBound pidOn (p + 1) fuel
    else scanExisting isBound pidOn (p + 1) fuel

/-- `find_existing_server` (src/main.rs:443-453): scans DEFAULT_PORT..=MAX_PORT. -/
def find_existing_server (isBound : Nat → Bool) (pidOn : Nat → Option Nat) :
    Option (Nat × Nat) :=
  scanExisting isBound pidOn DEFAULT_PORT (MAX_PORT + 1 - DEFAULT_PORT)

/-- Lowercasing of a name (`to_lowercase`, src/main.rs:399). The file
extensions compared against are pure ASCII, for which per-character ASCII
lowercasing coincides with Rust's Unicode lowercasing. -/
def lowerName (s : String) : String := String.mk (s.data.map Char.toLower)

/-- Suffix test on strings (`ends_with`, src/main.rs:400), as a character
list suffix check. -/
def endsWithStr (s post : String) : Bool := post.data.isSuffixOf s.data

/-- One directory entry name counts as HTML when its lowercased name ends in
`.html` or `.htm` (src/main.rs:399-400). -/
def isHtmlName (name : String) : Bool :=
  endsWithStr (lowerName name) (".html") || endsWithStr (lowerName name) (".htm")

/-- `has_html_files` (src/main.rs:395-407) over the entry names of the
directory. -/
def has_html_files (entries : List String) : Bool := entries.any isHtmlName

/-- Outcome facts about one pid, as observed by the two kill mechanisms of
`kill_process` (src/main.rs:491-503). `directKillDelivered` is the Bool that
`process.kill()` would return, and `killCmdExitOk` is whether `kill -9 pid`
exits successfully; the source inspects neither. `killCmdRuns` is whether the
external `kill` command can be invoked at all (`Command::output` returning Ok). -/
structure KillEnv where
  procFound : Bool := true
  directKillDelivered : Bool := true
  killCmdRuns : Bool := true
  killCmdExitOk : Bool := true
deriving DecidableEq, Repr

/-- `kill_process` (src/main.rs:491-503): if the sysinfo process-table lookup
finds the pid, call `process.kill()` and return Ok regardless of its result;
otherwise run `kill -9 pid` and return Ok as long as the command could be
invoked, regardless of its exit status. The only error is the external command
being un-invocable. -/
def kill_process (e : KillEnv) : Except HopenError Unit :=
  if e.procFound then Except.ok ()
  else if e.killCmdRuns then Except.ok ()
  else Except.error HopenError.TerminateFailed

/-- Whether either kill path actually terminated the process: the direct path
requires the table lookup to succeed and the signal to be delivered; the
fallback path requires the external command to run and exit successfully. -/
def KillEnv.terminated (e : KillEnv) : Bool :=
  if e.procFound then e.directKillDelivered
  else e.killCmdRuns && e.killCmdExitOk

/-- URL path = relative path joined with the filename when one is present
(src/main.rs:174-177). -/
def urlOf (rel : HPath) (f : Option String) : HPath :=
  match f with
  | some x => rel ++ [x]
  | none => rel

/-- Path resolution of main, steps 1-2 (src/main.rs:142-188): the
filename-requires-root validation, then the served directory and URL path.
With a site home: current dir must be the site home or a descendant
(`Path::starts_with`, src/main.rs:156), the relative part is
`strip_prefix` (src/main.rs:168-171), and the server directory is the site
home itself. Without one: serve the current directory, URL path from the
filename alone. -/
def resolve_paths (siteHome : Option HPath) (currentDir : HPath)
    (filename : Option String) : Except PathError (HPath × HPath) :=
  if filename.isSome && siteHome.isNone then
    Except.error PathError.FilenameRequiresRoot
  else
    match siteHome with
    | some sh =>
      if sh.isPrefixOf currentDir then
        Except.ok (sh, urlOf (currentDir.drop sh.length) filename)
      else
        Except.error PathError.NotUnderRoot
    | none =>
      Except.ok (currentDir, urlOf [] filename)

/-- Site-home determination (src/main.rs:133-140): the `-r` argument, else the
HOPEN_SITE_HOME environment variable; the chosen string is canonicalized
(`Path::canonicalize`, symlink-resolving), falling back to the uninterpreted
parse of the raw string when canonicalization fails (`unwrap_or`). `canon` is
the filesystem's canonicalization oracle, `parse` the plain component split. -/
def resolve_site_home (canon : String → Option HPath) (parse : String → HPath)
    (argRoot envRoot : Option String) : Option HPath :=
  (match argRoot with
   | some p => some p
   | none => envRoot).map (fun p => (canon p).getD (parse p))

/-- `PathBuf::display` of a relative path: components joined with a slash. -/
def pathDisplay (p : HPath) : String := String.intercalate ("/") p

/-- The url_path_str of main (src/main.rs:235-239): empty when the URL path is
empty, else a leading slash plus the displayed path. -/
def url_path_str (up : HPath) : String :=
  if up.isEmpty then "" else "/" ++ pathDisplay up

/-- Full URL construction (src/main.rs:245,336,347). -/
def mkUrl (port : Nat) (ups : String) : String :=
  "http://localhost:" ++ toString port ++ ups

/-- The ascending scan returns `some q` exactly when `q` is the least port at
or after `p`, within the fuel window, that the oracle reports free. -/
theorem scanPorts_some_iff (b : Nat → Bool) :
    ∀ (fuel p q : Nat),
      scanPorts b p fuel = some q ↔
        (p ≤ q ∧ q < p + fuel ∧ b q = false ∧
          ∀ r, p ≤ r → r < q → b r = true) := by
  intro fuel
  induction fuel with
  | zero =>
    intro p q
    constructor
    · intro h
      simp [scanPorts] at h
    · rintro ⟨h1, h2, -, -⟩
      exact absurd h2 (by omega)
  | succ fuel ih =>
    intro p q
    by_cases hb : b p = true
    · rw [show scanPorts b p (fuel + 1) = scanPorts b (p + 1) fuel from by
        simp [scanPorts, hb]]
      rw [ih (p + 1) q]
      constructor
      · rintro ⟨h1, h2, h3, h4⟩
        refine ⟨by omega, by omega, h3, ?_⟩
        intro r hr1 hr2
        rcases Nat.lt_or_ge r (p + 1) with hc | hc
        · have hrp : r = p := by omega
          rw [hrp]
          exact hb
        · exact h4 r hc hr2
      · rintro ⟨h1, h2, h3, h4⟩
        have hpq : p ≠ q := by
          intro e
          rw [← e] at h3
          rw [hb] at h3
          exact absurd h3 (by decide)
        exact ⟨by omega, by omega, h3, fun r hr1 hr2 => h4 r (by omega) hr2⟩
    · have hbf : b p = false := by
        revert hb
        cases b p <;> simp
      rw [show scanPorts b p (fuel + 1) = some p from by simp [scanPorts, hbf]]
      constructor
      · intro h
        have hpq : p = q := by
          injection h
        subst hpq
        exact ⟨Nat.le_refl p, by omega, hbf, fun r h1 h2 => absurd h2 (by omega)⟩
      · rintro ⟨h1, h2, h3, h4⟩
        have hqp : q = p := by
          by_contra hne
          have hlt : p < q := by omega
          have hc := h4 p (Nat.le_refl p) hlt
          rw [hbf] at hc
          exact absurd hc (by decide)
        rw [hqp]

/-- The ascending scan returns `none` exactly when every port in the fuel
window is bound. -/
theorem scanPorts_none_iff (b : Nat → Bool) :
    ∀ (fuel p : Nat),
      scanPorts b p fuel = none ↔ ∀ r, p ≤ r → r < p + fuel → b r = true := by
  intro fuel
  induction fuel with
  | zero =>
    intro p
    constructor
    · intro _ r h1 h2
      exact absurd h2 (by omega)
    · intro _
      rfl
  | succ fuel ih =>
    intro p
    by_cases hb : b p = true
    · rw [show scanPorts b p (fuel + 1) = scanPorts b (p + 1) fuel from by
        simp [scanPorts, hb]]
      rw [ih (p + 1)]
      constructor
      · intro h r h1 h2
        rcases Nat.lt_or_ge r (p + 1) with hc | hc
        · have hrp : r = p := by omega
          rw [hrp]
          exact hb
        · exact h r hc (by omega)
      · intro h r h1 h2
        exact h r (by omega) (by omega)
    · have hbf : b p = false := by
        revert hb
        cases b p <;> simp
      rw [show scanPorts b p (fuel + 1) = some p from by simp [scanPorts, hbf]]
      constructor
      · intro h
        exact absurd h (by simp)
      · intro h
        have hc := h p (Nat.le_refl p) (by omega)
        rw [hbf] at hc
        exact absurd hc (by decide)

/-- C1: for every start port and every port-bound predicate,
`find_available_port` returns exactly the smallest port p of the scanned
inclusive range (start..=MAX_PORT, which for the program's single call site
with start = DEFAULT_PORT = 8000 is the range 8000..=8100) for which
`isPortBound p` is false, and returns the NoPortAvailable error if and only if
every port of the range is bound; the scan is a deterministic ascending
first-fit (determinism: the result is a function of the predicate; ascending
minimality: the every-smaller-port-bound conjunct). -/
theorem find_available_port_spec (b : Nat → Bool) (start : Nat) :
    (∀ p, find_available_port b start = Except.ok p ↔
        (start ≤ p ∧ p ≤ MAX_PORT ∧ b p = false ∧
          ∀ q, start ≤ q → q < p → b q = true)) ∧
    (find_available_port b start = Except.error HopenError.NoPortAvailable ↔
        ∀ q, start ≤ q → q ≤ MAX_PORT → b q = true) := by
  have hM : MAX_PORT = 8100 := rfl
  constructor
  · intro p
    unfold find_available_port
    cases hs : scanPorts b start (MAX_PORT + 1 - start) with
    | none =>
      rw [scanPorts_none_iff] at hs
      rw [hM] at hs ⊢
      constructor
      · intro h
        exact absurd h (by simp)
      · rintro ⟨h1, h2, h3, h4⟩
        have hc := hs p h1 (by omega)
        rw [h3] at hc
        exact absurd hc (by decide)
    | some q =>
      rw [scanPorts_some_iff] at hs
      obtain ⟨g1, g2, g3, g4⟩ := hs
      rw [hM] at g2 ⊢
      constructor
      · intro h
        have hqp : q = p := by
          simpa using h
        subst hqp
        exact ⟨g1, by omega, g3, g4⟩
      · rintro ⟨h1, h2, h3, h4⟩
        have hpq : p = q := by
          rcases Nat.lt_trichotomy p q with hc | hc | hc
          · have hbp := g4 p h1 hc
            rw [h3] at hbp
            exact absurd hbp (by decide)
          · exact hc
          · have hbq := h4 q g1 hc
            rw [g3] at hbq
            exact absurd hbq (by decide)
        rw [hpq]
  · unfold find_available_port
    cases hs : scanPorts b start (MAX_PORT + 1 - start) with
    | none =>
      rw [scanPorts_none_iff] at hs
      rw [hM] at hs
      constructor
      · intro _ q h1 h2
        exact hs q h1 (by omega)
      · intro _
        rfl
    | some q =>
      rw [scanPorts_some_iff] at hs
      obtain ⟨g1, g2, g3, g4⟩ := hs
      rw [hM] at g2
      constructor
      · intro h
        exact absurd h (by simp)
      · intro h
        have hbq := h q g1 (by omega)
        rw [g3] at hbq
        exact absurd hbq (by decide)

/-- Witness for C1: with only port 8000 bound, the scan from 8000 returns
8001, the least free port of the range. -/
theorem find_available_port_spec_witness :
    find_available_port (fun p => p == 8000) 8000 = Except.ok 8001 :=
  ((find_available_port_spec (fun p => p == 8000) 8000).1 8001).mpr
    ⟨by omega, by decide, by decide, by
      intro q h1 h2
      have hq : q = 8000 := by omega
      rw [hq]
      decide⟩

/-- Helper: with a site home that is a component-prefix of the current
directory, resolution succeeds with the site home as served directory and the
stripped relative path joined with the filename as URL path. -/
theorem resolve_paths_prefix_ok (sh cur : HPath) (f : Option String)
    (h : sh.isPrefixOf cur = true) :
    resolve_paths (some sh) cur f =
      Except.ok (sh, urlOf (cur.drop sh.length) f) := by
  unfold resolve_paths
  simp [h]

/-- C2: for every siteRoot and every currentDir that is siteRoot or a
descendant of it (component-wise prefix), path mapping yields
servedDir = siteRoot and urlPath = the relative path of currentDir from
siteRoot joined with the filename when one is present. -/
theorem resolve_paths_under_root (sh cur : HPath) (f : Option String)
    (h : sh.isPrefixOf cur = true) :
    resolve_paths (some sh) cur f =
      Except.ok (sh, urlOf (cur.drop sh.length) f) :=
  resolve_paths_prefix_ok sh cur f h

/-- Witness for C2, Scenario A: siteRoot /site, currentDir /site/blog,
filename post.html yields servedDir /site and urlPath blog/post.html. -/
theorem resolve_paths_under_root_witness :
    resolve_paths (some ["site"]) ["site", "blog"] (some ("post.html")) =
      Except.ok (["site"], ["blog", "post.html"]) :=
  resolve_paths_under_root ["site"] ["site", "blog"] (some ("post.html"))
    (by decide)

/-- C4: the under-root comparison is made on canonicalized forms: the raw
site-home input is canonicalized (symlink-resolved) before the prefix
comparison, and the current directory is the canonical form the OS getcwd
returns, so whenever canonicalization of the (possibly symlinked or
non-canonical) input succeeds and names a directory the current directory
really sits under, resolution never rejects with NotUnderRoot. -/
theorem canonical_comparison_no_false_rejection
    (canon : String → Option HPath) (parse : String → HPath)
    (r : String) (envRoot : Option String) (cur : HPath) (f : Option String)
    (sh : HPath) (hc : canon r = some sh) (hp : sh.isPrefixOf cur = true) :
    resolve_paths (resolve_site_home canon parse (some r) envRoot) cur f ≠
      Except.error PathError.NotUnderRoot := by
  have hsh : resolve_site_home canon parse (some r) envRoot = some sh := by
    unfold resolve_site_home
    simp [hc]
  rw [hsh, resolve_paths_prefix_ok sh cur f hp]
  simp

/-- Witness for C4: a symlink input whose canonical form is /srv/site, with
the current directory /srv/site/blog, is not rejected. -/
theorem canonical_comparison_no_false_rejection_witness :
    resolve_paths
      (resolve_site_home (fun _ => some ["srv", "site"]) (fun _ => [])
        (some ("/links/site")) none)
      ["srv", "site", "blog"] none ≠ Except.error PathError.NotUnderRoot :=
  canonical_comparison_no_false_rejection (fun _ => some ["srv", "site"])
    (fun _ => []) "/links/site" none ["srv", "site", "blog"] none
    ["srv", "site"] rfl (by decide)

/-- C7 counterexample: a pid absent from the process table whose fallback
`kill -9` command runs but exits unsuccessfully. Both termination paths
failed (`terminated` is false), yet `kill_process` returns Ok, not the
TerminateFailed error the claim requires. -/
theorem kill_process_counterexample :
    KillEnv.terminated
        { procFound := false, directKillDelivered := false,
          killCmdRuns := true, killCmdExitOk := false } = false ∧
      kill_process
        { procFound := false, directKillDelivered := false,
          killCmdRuns := true, killCmdExitOk := false } = Except.ok () :=
  ⟨rfl, rfl⟩

/-- C7 amended: `kill_process` first consults the process table and, when the
pid is found there, returns success without inspecting the kill result; when
the pid is not found it falls back to the external `kill -9` command and
returns success as long as that command can be invoked, regardless of its
exit status; it returns the TerminateFailed error exactly when the pid is
absent from the table and the external kill command cannot be invoked at
all. -/
theorem kill_process_amended (e : KillEnv) :
    (e.procFound = true → kill_process e = Except.ok ()) ∧
    (e.procFound = false → e.killCmdRuns = true →
      kill_process e = Except.ok ()) ∧
    (kill_process e = Except.error HopenError.TerminateFailed ↔
      e.procFound = false ∧ e.killCmdRuns = false) := by
  obtain ⟨pf, dk, kr, ko⟩ := e
  cases pf <;> cases kr <;> simp [kill_process]

/-- Witness for C7 amended: both mechanisms unavailable yields the
TerminateFailed error. -/
theorem kill_process_amended_witness :
    kill_process
        { procFound := false, directKillDelivered := false,
          killCmdRuns := false, killCmdExitOk := false } =
      Except.error HopenError.TerminateFailed :=
  (kill_process_amended
    { procFound := false, directKillDelivered := false,
      killCmdRuns := false, killCmdExitOk := false }).2.2.mpr ⟨rfl, rfl⟩

/-- Menu choices when a server is already running (src/main.rs:74-79). -/
inductive ExistingServerMenu
  | OpenBrowser
  | QuitServer
  | QuitAndRestart
  | Cancel
deriving DecidableEq, Repr

/-- Menu choices when starting a new server with the menu flag
(src/main.rs:94-98). -/
inductive StartupMenu
  | StartBackground
  | StartForeground
  | Cancel
deriving DecidableEq, Repr

/-- Command-line arguments (src/main.rs:32-70). `internal_dir` is carried as
an already-split component path. -/
structure Args where
  filename : Option String := none
  site_home : Option String := none
  exit : Bool := false
  foreground : Bool := false
  menu : Bool := false
  prompt : Bool := false
  internal_serve : Bool := false
  internal_port : Option Nat := none
  internal_dir : Option HPath := none

/-- Observable side effects of one invocation, in order of occurrence.
`portScan` marks an invocation of a port-scanning routine
(`find_available_port`, `find_existing_server`, or the post-spawn
`is_port_in_use` verification); `spawnServer` is the background
self-re-invocation with the internal-serve flag, carrying the child's pid;
`serveForeground` is a direct blocking `run_server` call; `printMsg` records
the principal diagnostic line printed in that branch (first line, without
colouring). -/
inductive Event
  | portScan
  | spawnServer (dir : HPath) (port : Nat) (childPid : Nat)
  | serveForeground (dir : HPath) (port : Nat)
  | openBrowser (url : String)
  | killAttempt (pid : Nat)
  | writeLog (path : String)
  | printMsg (msg : String)
deriving DecidableEq, Repr

/-- Outcome of one invocation: its process exit code and its event trace. -/
structure MainResult where
  exitCode : Nat
  events : List Event
deriving DecidableEq, Repr

/-- Prepend earlier events to a result. -/
def MainResult.withPre (pre : List Event) (r : MainResult) : MainResult :=
  ⟨r.exitCode, pre ++ r.events⟩

/-- Whether an event launches a server process (either mode). -/
def Event.isLaunch : Event → Bool
  | .spawnServer _ _ _ => true
  | .serveForeground _ _ => true
  | _ => false

/-- Whether an event is a port scan. -/
def Event.isScan : Event → Bool
  | .portScan => true
  | _ => false

/-- A result whose trace launches no server process. -/
def spawnFree (r : MainResult) : Bool :=
  r.events.all (fun e => !(e.isLaunch))

/-- A result whose trace neither scans a port nor launches a server. -/
def preLaunchClean (r : MainResult) : Bool :=
  r.events.all (fun e => !(e.isLaunch || e.isScan))

/-- The ambient OS and terminal state one invocation observes. Port state is
sampled at three points: before anything is spawned or killed
(`isPortBound`), after the quit-and-restart kill and settle delay
(`isPortBoundAfterKill`), and at the post-spawn startup verification
(`isPortBoundAfterSpawn`). `dirEntries` are the entry names of the current
directory; `parse` and `canon` are the path-split and canonicalization
oracles for the raw site-home string; `killEnv` gives each pid's kill
outcome facts; `parentPid` is this process's own id (`std::process::id`) and
`childPid` the id the spawned background child receives; `promptAnswer`,
`menuExisting` and `menuStartup` are the interactive terminal inputs. -/
structure World where
  currentDir : HPath := []
  envSiteHome : Option String := none
  parse : String → HPath := fun _ => []
  canon : String → Option HPath := fun _ => none
  dirEntries : List String := []
  isPortBound : Nat → Bool := fun _ => false
  pidOnPort : Nat → Option Nat := fun _ => none
  isPortBoundAfterKill : Nat → Bool := fun _ => false
  isPortBoundAfterSpawn : Nat → Bool := fun _ => true
  rootExists : HPath → Bool := fun _ => true
  killEnv : Nat → KillEnv := fun _ => { }
  parentPid : Nat := 0
  childPid : Nat := 0
  promptAnswer : Bool := false
  menuExisting : ExistingServerMenu := ExistingServerMenu.Cancel
  menuStartup : StartupMenu := StartupMenu.Cancel

/-- Browser-opening events of `start_server` (src/main.rs:548-569,627-642):
with the prompt flag, open only on an affirmative terminal answer; otherwise
open automatically. -/
def browserEvents (url : String) (prompt answer : Bool) : List Event :=
  if prompt then
    if answer then [Event.openBrowser url] else []
  else [Event.openBrowser url]

/-- `start_server` (src/main.rs:527-646). Checks that the root exists
(src/main.rs:539-541, bail means exit code 1). Foreground: open the browser
(deferred task, or after the prompt) and run the blocking server. Background:
create the log file at the /tmp path keyed by `std::process::id()` - the
launching process's own pid (src/main.rs:584) - spawn the detached
self-re-invocation, wait the settle delay, verify the port is now bound
(exit code 1 if not, src/main.rs:608-612), then open the browser. -/
def start_server (w : World) (root : HPath) (port : Nat) (url : String)
    (prompt foreground : Bool) : MainResult :=
  if !(w.rootExists root) then ⟨1, []⟩
  else if foreground then
    ⟨0, browserEvents url prompt w.promptAnswer ++
        [Event.serveForeground root port]⟩
  else
    let log := "/tmp/hopen-server-" ++ toString w.parentPid ++ ".log"
    let pre := [Event.writeLog log, Event.spawnServer root port w.childPid,
      Event.portScan]
    if !(w.isPortBoundAfterSpawn port) then ⟨1, pre⟩
    else ⟨0, pre ++ browserEvents url prompt w.promptAnswer⟩

/-- Diagnostic line of the missing-HTML validation (src/main.rs:196). -/
def noHtmlMsg : String := "✗ No HTML files found in current directory"

/-- Diagnostic line of the filename-without-root validation
(src/main.rs:144-146). -/
def filenameRootMsg : String :=
  "Error: filename argument requires either -r flag or HOPEN_SITE_HOME to be set"

/-- Diagnostic line of the not-under-root validation (src/main.rs:157). -/
def notUnderRootMsg : String := "Error: Current directory is not under site_home"

/-- Diagnostic of the exhausted port range (src/main.rs:416-420). -/
def noPortsMsg : String := "No available ports found in range 8000-8100"

/-- Message of the exit flag finding no server (src/main.rs:229). -/
def noServerMsg : String := "No server running on port 8000."

/-- Message of the exit flag stopping the found server (src/main.rs:226). -/
def serverStoppedMsg (pid port : Nat) : String :=
  "✓ Server stopped (PID: " ++ toString pid ++ ", port: " ++ toString port ++ ")"

/-- The existing-server flow of main, step 6 (src/main.rs:244-342): without
the menu flag, reuse the running server and just open the browser at its
port; with it, follow the chosen menu entry. Quit-and-restart kills, waits
for the port release, re-checks HTML files, scans for a fresh port against
the post-kill state and starts anew (src/main.rs:299-338). -/
def existingFlow (w : World) (a : Args) (server_dir url_path : HPath)
    (pid eport : Nat) : MainResult :=
  let full_url := mkUrl eport (url_path_str url_path)
  if !a.menu then ⟨0, [Event.openBrowser full_url]⟩
  else
    match w.menuExisting with
    | ExistingServerMenu.OpenBrowser => ⟨0, [Event.openBrowser full_url]⟩
    | ExistingServerMenu.QuitServer =>
      match kill_process (w.killEnv pid) with
      | Except.ok _ => ⟨0, [Event.killAttempt pid]⟩
      | Except.error _ => ⟨1, [Event.killAttempt pid]⟩
    | ExistingServerMenu.QuitAndRestart =>
      match kill_process (w.killEnv pid) with
      | Except.error _ => ⟨1, [Event.killAttempt pid]⟩
      | Except.ok _ =>
        if has_html_files w.dirEntries then
          match find_available_port w.isPortBoundAfterKill DEFAULT_PORT with
          | Except.ok newPort =>
            MainResult.withPre [Event.killAttempt pid, Event.portScan]
              (start_server w server_dir newPort
                (mkUrl newPort (url_path_str url_path)) a.prompt a.foreground)
          | Except.error _ =>
            ⟨1, [Event.killAttempt pid, Event.portScan,
              Event.printMsg noPortsMsg]⟩
        else ⟨1, [Event.killAttempt pid, Event.printMsg noHtmlMsg]⟩
    | ExistingServerMenu.Cancel => ⟨0, []⟩

/-- The no-existing-server flow of main, step 7 (src/main.rs:343-389): with
the menu flag, the startup menu picks background, foreground or cancel;
otherwise start directly with the invocation's foreground flag. -/
def freshFlow (w : World) (a : Args) (server_dir url_path : HPath)
    (port : Nat) : MainResult :=
  let full_url := mkUrl port (url_path_str url_path)
  if a.menu then
    match w.menuStartup with
    | StartupMenu.StartBackground =>
      start_server w server_dir port full_url a.prompt false
    | StartupMenu.StartForeground =>
      start_server w server_dir port full_url a.prompt true
    | StartupMenu.Cancel => ⟨0, []⟩
  else start_server w server_dir port full_url a.prompt a.foreground

/-- Steps 4-7 of main once validations passed and a free port is known
(src/main.rs:216-389): probe for an existing server; with the exit flag,
kill it (exit code 1 when `kill_process` itself errors) or report that no
server runs, then return; otherwise run the existing-server or fresh-start
flow. -/
def runLifecycle (w : World) (a : Args) (server_dir url_path : HPath)
    (port : Nat) : MainResult :=
  match find_existing_server w.isPortBound w.pidOnPort with
  | some (pid, eport) =>
    if a.exit then
      match kill_process (w.killEnv pid) with
      | Except.ok _ =>
        ⟨0, [Event.killAttempt pid, Event.printMsg (serverStoppedMsg pid eport)]⟩
      | Except.error _ => ⟨1, [Event.killAttempt pid]⟩
    else existingFlow w a server_dir url_path pid eport
  | none =>
    if a.exit then ⟨0, [Event.printMsg noServerMsg]⟩
    else freshFlow w a server_dir url_path port

/-- The whole of main (src/main.rs:111-392). Internal-serve mode runs the
server directly with the internal port defaulting to DEFAULT_PORT and the
internal directory to the current directory, skipping every public-interface
validation (src/main.rs:117-125). Otherwise: resolve the site home and URL
path, validate HTML presence in the current directory, scan for a free port
(one portScan event per scanning call: `find_available_port` then
`find_existing_server`), and hand over to the lifecycle. Validation failures
and the anyhow bail paths exit with code 1. -/
def hopenMain (w : World) (a : Args) : MainResult :=
  if a.internal_serve then
    ⟨0, [Event.serveForeground (a.internal_dir.getD w.currentDir)
      (a.internal_port.getD DEFAULT_PORT)]⟩
  else
    match resolve_paths
        (resolve_site_home w.canon w.parse a.site_home w.envSiteHome)
        w.currentDir a.filename with
    | Except.error PathError.FilenameRequiresRoot =>
      ⟨1, [Event.printMsg filenameRootMsg]⟩
    | Except.error PathError.NotUnderRoot =>
      ⟨1, [Event.printMsg notUnderRootMsg]⟩
    | Except.ok (server_dir, url_path) =>
      if has_html_files w.dirEntries then
        match find_available_port w.isPortBound DEFAULT_PORT with
        | Except.ok port =>
          MainResult.withPre [Event.portScan, Event.portScan]
            (runLifecycle w a server_dir url_path port)
        | Except.error _ => ⟨1, [Event.portScan, Event.printMsg noPortsMsg]⟩
      else ⟨1, [Event.printMsg noHtmlMsg]⟩

/-- C10: with the hidden internal-serve flag set, the program runs the HTTP
server directly - the trace is exactly one foreground-serve event - with the
port defaulting to 8000 when the internal port option is absent and the
directory to the current directory when the internal directory option is
absent, and, for every ambient state, performs none of the public-interface
validations: no HTML-file check, no path validation, no port scan, no
existing-server probe (no other event occurs, and the exit code is 0
whatever the directory contents or port state are). -/
theorem internal_serve_direct (w : World) (a : Args)
    (hint : a.internal_serve = true) :
    hopenMain w a =
      ⟨0, [Event.serveForeground (a.internal_dir.getD w.currentDir)
        (a.internal_port.getD DEFAULT_PORT)]⟩ := by
  unfold hopenMain
  rw [hint]
  simp

/-- Witness for C10: internal-serve with both internal options absent serves
the current directory on port 8000. -/
theorem internal_serve_direct_witness :
    hopenMain { currentDir := ["w"], dirEntries := [] }
        { internal_serve := true } =
      ⟨0, [Event.serveForeground ["w"] 8000]⟩ :=
  internal_serve_direct { currentDir := ["w"], dirEntries := [] }
    { internal_serve := true } rfl

/-- C3: for every siteRoot and every currentDir that is neither siteRoot nor
a descendant of it, a (non-internal) invocation always fails hard with the
not-under-root error: exit code 1, the not-under-root diagnostic as the sole
event, and in particular no best-effort served directory, no URL, no browser
open, no port scan and no server launch. -/
theorem not_under_root_hard_error (w : World) (a : Args) (sh : HPath)
    (hint : a.internal_serve = false)
    (hsh : resolve_site_home w.canon w.parse a.site_home w.envSiteHome =
      some sh)
    (hpre : sh.isPrefixOf w.currentDir = false) :
    hopenMain w a = ⟨1, [Event.printMsg notUnderRootMsg]⟩ := by
  have hres : resolve_paths
      (resolve_site_home w.canon w.parse a.site_home w.envSiteHome)
      w.currentDir a.filename = Except.error PathError.NotUnderRoot := by
    rw [hsh]
    unfold resolve_paths
    simp [hpre]
  unfold hopenMain
  rw [hint, hres]
  simp

/-- Witness for C3: site home /b with current directory /a is rejected with
exit code 1 and only the diagnostic in the trace. -/
theorem not_under_root_hard_error_witness :
    hopenMain { currentDir := ["a"], parse := fun _ => ["b"] }
        { site_home := some ("b") } =
      ⟨1, [Event.printMsg notUnderRootMsg]⟩ :=
  not_under_root_hard_error { currentDir := ["a"], parse := fun _ => ["b"] }
    { site_home := some ("b") } ["b"] rfl rfl (by decide)

/-- C6: every non-internal invocation whose current directory holds no file
named with extension .htm or .html (case-insensitive) exits with code 1
before any port scan and before any server launch: the trace contains no
port-scan and no launch event. -/
theorem no_html_early_exit (w : World) (a : Args)
    (hint : a.internal_serve = false)
    (hhtml : has_html_files w.dirEntries = false) :
    (hopenMain w a).exitCode = 1 ∧ preLaunchClean (hopenMain w a) = true := by
  unfold hopenMain
  rw [hint]
  simp only [Bool.false_eq_true, if_false]
  cases hres : resolve_paths
      (resolve_site_home w.canon w.parse a.site_home w.envSiteHome)
      w.currentDir a.filename with
  | error e =>
    cases e <;>
      simp [preLaunchClean, Event.isLaunch, Event.isScan]
  | ok pr =>
    obtain ⟨sd, up⟩ := pr
    simp [hhtml, preLaunchClean, Event.isLaunch, Event.isScan]

/-- Witness for C6: a directory holding only a.txt exits 1 with a clean
trace. -/
theorem no_html_early_exit_witness :
    (hopenMain { dirEntries := ["a.txt"] } { }).exitCode = 1 ∧
      preLaunchClean (hopenMain { dirEntries := ["a.txt"] } { }) = true :=
  no_html_early_exit { dirEntries := ["a.txt"] } { } rfl (by decide)

/-- C5 counterexample: an invocation with the exit flag set, in a directory
with no HTML file and with no server found anywhere in the range, exits with
code 1 (the HTML-file validation runs before the exit-flag handling,
src/main.rs:193-232), not with the code 0 the claim requires. -/
theorem exit_flag_counterexample :
    Args.exit { exit := true } = true ∧
      find_existing_server (World.isPortBound { }) (World.pidOnPort { }) =
        none ∧
      (hopenMain { } { exit := true }).exitCode = 1 := by
  refine ⟨rfl, ?_, rfl⟩
  rfl

/-- C5 amended: provided the invocation passes the validations that precede
the exit-flag handling (path resolution succeeds, the current directory
contains an HTML file, and a free port exists in the range), an invocation
with the exit flag set that finds no existing server in the range exits with
code zero, prints the no-server-running message, and launches nothing: its
trace is exactly the two port scans and that message. -/
theorem exit_flag_no_server_amended (w : World) (a : Args) (sd up : HPath)
    (port : Nat)
    (hint : a.internal_serve = false) (hexit : a.exit = true)
    (hres : resolve_paths
      (resolve_site_home w.canon w.parse a.site_home w.envSiteHome)
      w.currentDir a.filename = Except.ok (sd, up))
    (hhtml : has_html_files w.dirEntries = true)
    (hport : find_available_port w.isPortBound DEFAULT_PORT = Except.ok port)
    (hex : find_existing_server w.isPortBound w.pidOnPort = none) :
    hopenMain w a =
      ⟨0, [Event.portScan, Event.portScan, Event.printMsg noServerMsg]⟩ := by
  unfold hopenMain
  rw [hint, hres]
  simp only [Bool.false_eq_true, if_false]
  rw [hhtml]
  simp only [if_true]
  rw [hport]
  unfold runLifecycle
  rw [hex, hexit]
  simp [MainResult.withPre]

/-- Witness for C5 amended: directory holding index.html, all ports free, no
pid anywhere: exit code 0 and the no-server message. -/
theorem exit_flag_no_server_amended_witness :
    hopenMain { dirEntries := ["index.html"] } { exit := true } =
      ⟨0, [Event.portScan, Event.portScan, Event.printMsg noServerMsg]⟩ :=
  exit_flag_no_server_amended { dirEntries := ["index.html"] }
    { exit := true } [] [] 8000 rfl rfl rfl (by decide) rfl rfl

/-- C9: whenever the probe finds a server already running in the port range
(`find_existing_server` returns pid and port), a non-internal invocation
with neither the menu flag nor the exit flag set launches no second server
process - its trace holds no spawn and no foreground-serve event whatever
else happens - and, when the preceding validations pass (path resolution
succeeds, HTML files exist, a free port exists), it does nothing but open
the browser against the existing server's port and return with exit
code 0. -/
theorem reuse_idempotent (w : World) (a : Args) (pid eport : Nat)
    (hint : a.internal_serve = false) (hexit : a.exit = false)
    (hmenu : a.menu = false)
    (hex : find_existing_server w.isPortBound w.pidOnPort =
      some (pid, eport)) :
    spawnFree (hopenMain w a) = true ∧
      ∀ sd up port,
        resolve_paths
            (resolve_site_home w.canon w.parse a.site_home w.envSiteHome)
            w.currentDir a.filename = Except.ok (sd, up) →
        has_html_files w.dirEntries = true →
        find_available_port w.isPortBound DEFAULT_PORT = Except.ok port →
        hopenMain w a =
          ⟨0, [Event.portScan, Event.portScan,
            Event.openBrowser (mkUrl eport (url_path_str up))]⟩ := by
  constructor
  · unfold hopenMain
    rw [hint]
    simp only [Bool.false_eq_true, if_false]
    cases hres : resolve_paths
        (resolve_site_home w.canon w.parse a.site_home w.envSiteHome)
        w.currentDir a.filename with
    | error e =>
      cases e <;> simp [spawnFree, Event.isLaunch]
    | ok pr =>
      obtain ⟨sd, up⟩ := pr
      by_cases hh : has_html_files w.dirEntries = true
      · rw [hh]
        simp only [if_true]
        cases hport : find_available_port w.isPortBound DEFAULT_PORT with
        | error e2 => simp [spawnFree, Event.isLaunch]
        | ok port =>
          unfold runLifecycle
          rw [hex, hexit]
          unfold existingFlow
          rw [hmenu]
          simp [spawnFree, MainResult.withPre, Event.isLaunch]
      · have hh2 : has_html_files w.dirEntries = false := by
          revert hh
          cases has_html_files w.dirEntries <;> simp
        rw [hh2]
        simp [spawnFree, Event.isLaunch]
  · intro sd up port hres hhtml hport
    unfold hopenMain
    rw [hint, hres]
    simp only [Bool.false_eq_true, if_false]
    rw [hhtml]
    simp only [if_true]
    rw [hport]
    unfold runLifecycle
    rw [hex, hexit]
    unfold existingFlow
    rw [hmenu]
    simp [MainResult.withPre]

/-- Witness for C9: a server with pid 42 on port 8000, directory holding
index.html: the invocation's trace is scan, scan, browser open at the
existing port, exit code 0, and is launch-free. -/
theorem reuse_idempotent_witness :
    spawnFree (hopenMain
        { dirEntries := ["index.html"],
          isPortBound := fun p => p == 8000,
          pidOnPort := fun p => if p == 8000 then some 42 else none } { }) =
      true ∧
    hopenMain
        { dirEntries := ["index.html"],
          isPortBound := fun p => p == 8000,
          pidOnPort := fun p => if p == 8000 then some 42 else none } { } =
      ⟨0, [Event.portScan, Event.portScan,
        Event.openBrowser ("http://localhost:8000")]⟩ :=
  ⟨(reuse_idempotent
      { dirEntries := ["index.html"],
        isPortBound := fun p => p == 8000,
        pidOnPort := fun p => if p == 8000 then some 42 else none } { }
      42 8000 rfl rfl rfl rfl).1,
   (reuse_idempotent
      { dirEntries := ["index.html"],
        isPortBound := fun p => p == 8000,
        pidOnPort := fun p => if p == 8000 then some 42 else none } { }
      42 8000 rfl rfl rfl rfl).2 [] [] 8001 rfl (by decide) rfl⟩

/-- C8 counterexample: a background launch by a parent process with pid 100
spawning a child with pid 200 writes its log at /tmp/hopen-server-100.log -
keyed by the launching process's id (`std::process::id()`,
src/main.rs:584) - which differs from the path keyed by the spawned
background process's own id that the claim requires. -/
theorem log_file_keyed_counterexample :
    (start_server { parentPid := 100, childPid := 200 } ["d"] 8000 ("u")
        false false).events =
      [Event.writeLog ("/tmp/hopen-server-100.log"),
       Event.spawnServer ["d"] 8000 200, Event.portScan,
       Event.openBrowser ("u")] ∧
    ("/tmp/hopen-server-100.log" ≠
      "/tmp/hopen-server-" ++ toString 200 ++ ".log") := by
  exact ⟨rfl, by decide⟩

/-- C8 amended: for every background launch (whenever the root directory
exists, so the launch proceeds), the per-launch log file capturing the
spawned server's combined output is written at the well-known
temporary-directory path keyed by the launching (parent) process's own id,
not by the spawned background process's id; the spawn of the child follows
immediately after. -/
theorem log_file_parent_pid_amended (w : World) (root : HPath) (port : Nat)
    (url : String) (prompt : Bool) (hroot : w.rootExists root = true) :
    ∃ rest,
      (start_server w root port url prompt false).events =
        Event.writeLog ("/tmp/hopen-server-" ++ toString w.parentPid ++
            ".log") ::
          Event.spawnServer root port w.childPid :: rest := by
  unfold start_server
  rw [hroot]
  by_cases hb : w.isPortBoundAfterSpawn port = true
  · rw [hb]
    exact ⟨[Event.portScan] ++ browserEvents url prompt w.promptAnswer, rfl⟩
  · have hb2 : w.isPortBoundAfterSpawn port = false := by
      revert hb
      cases w.isPortBoundAfterSpawn port <;> simp
    rw [hb2]
    exact ⟨[Event.portScan], rfl⟩

/-- Witness for C8 amended: a launcher with pid 7 logs its child at the
pid-7-keyed path. -/
theorem log_file_parent_pid_amended_witness :
    ∃ rest,
      (start_server { parentPid := 7, childPid := 9 } ["d"] 8000 ("u")
          false false).events =
        Event.writeLog ("/tmp/hopen-server-" ++ toString 7 ++ ".log") ::
          Event.spawnServer ["d"] 8000 9 :: rest :=
  log_file_parent_pid_amended { parentPid := 7, childPid := 9 } ["d"] 8000
    ("u") false rfl

end Hopen
